import Mathlib

/-!
Verification development for the zkTest1 balance-threshold proof service.

The program under study is the Go HTTP server whose core is:
  a fixed arithmetic circuit BalanceCircuit asserting
  NeededAmount <= Balance (NeededAmount public, Balance private),
  an in-memory balance map guarded by a mutex, and three handlers
  storeBalance, generateProof and validateProof built on the gnark
  Groth16 backend (frontend.Compile, groth16.Setup, groth16.Prove,
  groth16.Verify) over the BN254 scalar field.

The gnark backend is an external library; it is embedded here as a
symbolic, executable model that reflects its documented contract:
  - Setup is a randomized trusted setup; the sampled randomness is made
    an explicit parameter, and the proving and verifying key of one
    Setup run carry the same randomness tag.
  - Prove succeeds exactly when the witness satisfies the circuit
    constraint, and the produced proof is bound to the setup instance
    that produced the proving key and to the public input of the
    witness.
  - Verify accepts exactly the proofs produced under the matching key
    pair with the matching public input (soundness and public-input
    binding are idealized to hold absolutely instead of with
    overwhelming probability).
Go ints enter the circuit reduced modulo the BN254 scalar field prime,
which is what frontend.NewWitness does with big.Int values.

The handlers themselves are translated branch by branch from the Go
source, including the fact that each handler re-runs Compile and Setup
on every request, and the fact that validateProof decodes the submitted
proof with json.Unmarshal into a variable of the non-empty interface
type groth16.Proof, which the Go json package deterministically refuses
for any JSON object (it can only fill empty interfaces); a JSON null
leaves the interface nil and groth16.Verify then rejects the nil proof
in its curve type switch. The repository test file itself notes that
the emitted proofs cannot be deserialized this way.
-/

namespace ZkTest1

/-- The BN254 (alt_bn128) scalar field prime, the modulus returned by
ecc.BN254.ScalarField() and used by frontend.Compile and
frontend.NewWitness. -/
def bn254r : ℕ := 21888242871839275222246405745257275088548364400416034343698204186575808495617

/-- How a Go int reaches the circuit: frontend.NewWitness reduces the
value modulo the scalar field, mapping it into the range 0 .. bn254r-1
(negative inputs wrap around). -/
def toF (x : Int) : ℕ := (x % (bn254r : Int)).toNat

/-- The compiled constraint system. The circuit shape is fixed (one
private variable, one public variable, one comparison assertion), so
frontend.Compile over BalanceCircuit always yields this one system. -/
inductive CCS
  | balanceCCS
deriving DecidableEq

/-- frontend.Compile(ecc.BN254.ScalarField(), r1cs.NewBuilder,
(addr of BalanceCircuit)): always succeeds on the fixed circuit shape;
the error branch of the handlers is kept to mirror the source. -/
def frontendCompile : Except String CCS := .ok .balanceCCS

/-- A witness assignment for the circuit struct BalanceCircuit: Balance
is the private variable, NeededAmount the public one, both already
reduced into the scalar field. -/
structure BalanceCircuit where
  Balance : ℕ
  NeededAmount : ℕ
deriving DecidableEq

/-- The circuit's Define method places the single constraint
api.AssertIsLessOrEqual(NeededAmount, Balance); an assignment satisfies
it exactly when NeededAmount <= Balance as field values. -/
def BalanceCircuit.Define (c : BalanceCircuit) : Bool :=
  decide (c.NeededAmount ≤ c.Balance)

/-- frontend.NewWitness on a filled-in BalanceCircuit value. -/
def newWitness (balance neededAmount : Int) : BalanceCircuit :=
  ⟨toF balance, toF neededAmount⟩

namespace groth16

/-- A Groth16 proving key; rnd records the randomness sampled by the
Setup run that produced it. -/
structure ProvingKey where
  ccs : CCS
  rnd : ℕ
deriving DecidableEq

/-- A Groth16 verifying key; rnd records the randomness sampled by the
Setup run that produced it. -/
structure VerifyingKey where
  ccs : CCS
  rnd : ℕ
deriving DecidableEq

/-- A Groth16 proof: symbolically, it is bound to the setup instance
whose proving key produced it (rnd) and to the public input it was
produced for (pub). -/
structure Proof where
  rnd : ℕ
  pub : ℕ
deriving DecidableEq

/-- Failure modes of proof construction visible in this program:
witness solving fails when the comparison assertion is unsatisfied. -/
inductive ProveError
  | constraintUnsatisfied
deriving DecidableEq

/-- groth16.Setup: the randomized trusted setup. The randomness the
library samples from its CSPRNG is the explicit parameter rnd; one run
yields a mutually consistent (proving key, verifying key) pair. -/
def Setup (c : CCS) (rnd : ℕ) : ProvingKey × VerifyingKey :=
  (⟨c, rnd⟩, ⟨c, rnd⟩)

/-- groth16.Prove: solves the witness against the constraint system and
produces a proof. Solving fails deterministically when the assertion
NeededAmount <= Balance does not hold of the assignment. -/
def Prove (_c : CCS) (pk : ProvingKey) (w : BalanceCircuit) : Except ProveError Proof :=
  if w.Define then .ok ⟨pk.rnd, w.NeededAmount⟩ else .error .constraintUnsatisfied

/-- groth16.Verify: pure check of a proof against a verifying key and
the public input; accepts exactly the proofs produced under the same
setup instance with the same public input. -/
def Verify (prf : Proof) (vk : VerifyingKey) (pub : ℕ) : Bool :=
  prf.rnd == vk.rnd && prf.pub == pub

end groth16

/-! The server state and wire-level structures of the handlers. -/

/-- The global balances map (map from identity string to Go int),
represented as an association list where the most recent write for an
identity shadows older entries. -/
abbrev Balances := List (String × Int)

/-- Reading the balances map: balances(id). -/
def lookupBalance (s : Balances) (id : String) : Option Int :=
  (s.find? (fun p => p.1 == id)).map (fun p => p.2)

/-- Request body of the /store/sum endpoint. -/
structure BalanceRequest where
  id : String
  amount : Int

/-- Request body of the /get/proof/neededAmount endpoint. -/
structure ProofRequest where
  id : String
  neededAmount : Int

/-- The JSON document standing in the proof field of a validate
request: either the JSON object that json.NewEncoder produced from a
concrete Groth16 proof, or a JSON null. -/
inductive ProofWire
  | obj (rnd pub : ℕ)
  | null
deriving DecidableEq

/-- Request body of the /validate endpoint; the proof travels as raw
JSON (json.RawMessage). -/
structure ValidateRequest where
  id : String
  neededAmount : Int
  proof : ProofWire

/-- json.NewEncoder(w).Encode(proof) in generateProof: serializes the
concrete proof value to a JSON object. -/
def encodeProof (p : groth16.Proof) : ProofWire := .obj p.rnd p.pub

/-- Decode failures of the validate endpoint's proof field. -/
inductive DecodeErr
  | cannotUnmarshalIntoInterface
deriving DecidableEq

/-- json.Unmarshal(req.Proof, addr-of proof) where proof is declared
with the non-empty interface type groth16.Proof: the Go json package
cannot unmarshal a JSON object into a non-empty interface (it returns
an UnmarshalTypeError), and a JSON null leaves the interface nil
without error. Hence no JSON object ever decodes to a proof value on
this path. -/
def jsonUnmarshalProofInterface : ProofWire → Except DecodeErr (Option groth16.Proof)
  | .null => .ok none
  | .obj _ _ => .error .cannotUnmarshalIntoInterface

/-! The three handlers, translated branch by branch from the source.
HTTP statuses are the numeric codes the handlers write. Each handler
that runs groth16.Setup takes the randomness that Setup samples during
that request as an explicit parameter. -/

/-- storeBalance: decode, then balances(req.ID) := req.Amount under the
mutex, then 200. The write is unconditional (create or overwrite). -/
def storeBalance (s : Balances) (req : BalanceRequest) : Balances × ℕ :=
  ((req.id, req.amount) :: s, 200)

/-- Result of generateProof: the written status, the proof JSON written
to the body (if any), and whether the setup and proving steps of the
handler body were reached (they sit after the balance lookup in the
source). -/
structure GenResponse where
  status : ℕ
  proof : Option ProofWire
  setupRan : Bool
  proveRan : Bool
deriving DecidableEq

/-- generateProof: look the identity up in the balances map (404 when
absent, before any circuit work), then compile the circuit, run
groth16.Setup afresh for this request, build the full witness from the
stored balance and the requested amount, run groth16.Prove, and on
success encode the proof to the response body with status 200; a prove
failure is written as status 500 with no proof. -/
def generateProof (s : Balances) (req : ProofRequest) (rnd : ℕ) : GenResponse :=
  match lookupBalance s req.id with
  | none => ⟨404, none, false, false⟩
  | some balance =>
    match frontendCompile with
    | .error _ => ⟨500, none, false, false⟩
    | .ok c =>
      let keys := groth16.Setup c rnd
      let w := newWitness balance req.neededAmount
      match groth16.Prove c keys.1 w with
      | .error _ => ⟨500, none, true, true⟩
      | .ok prf => ⟨200, some (encodeProof prf), true, true⟩

/-- validateProof: compile the circuit again, run groth16.Setup afresh
for this request (obtaining a verifying key unrelated to any earlier
proving key), build the public witness from req.NeededAmount, decode
the submitted proof with json.Unmarshal into a groth16.Proof interface
variable (400 on decode error), and call groth16.Verify (401 on
rejection, 200 on acceptance; a nil proof is rejected by the curve
type switch inside Verify). The handler never reads the balances map
and never reads the id field of the request. -/
def validateProof (_s : Balances) (req : ValidateRequest) (rnd : ℕ) : ℕ :=
  match frontendCompile with
  | .error _ => 500
  | .ok c =>
    let keys := groth16.Setup c rnd
    let pub := toF req.neededAmount
    match jsonUnmarshalProofInterface req.proof with
    | .error _ => 400
    | .ok none => 401
    | .ok (some prf) => if groth16.Verify prf keys.2 pub then 200 else 401

/-! Named identities used by the concrete scenarios. -/

def aliceId : String := "alice"
def charlieId : String := "charlie"
def daveId : String := "dave"

/-- Scenario A, step 1: store balance 200 for alice into the empty
server state. -/
def scenarioAStore : Balances := (storeBalance [] ⟨aliceId, 200⟩).1

/-- Scenario A, step 2: request a proof for alice with threshold 150;
the setup randomness sampled during this request is 0. -/
def scenarioAGen : GenResponse := generateProof scenarioAStore ⟨aliceId, 150⟩ 0

/-! Helper lemmas about the field embedding and the store. -/

/-- In-range nonnegative Go ints are carried into the field unchanged. -/
theorem toF_of_range (x : Int) (h0 : 0 ≤ x) (h1 : x < (bn254r : Int)) :
    (toF x : Int) = x := by
  unfold toF
  rw [Int.emod_eq_of_lt h0 h1]
  exact Int.toNat_of_nonneg h0

/-- An identity that was never written is absent from the map. -/
theorem lookupBalance_eq_none (s : Balances) (j : String)
    (hj : j ∉ s.map Prod.fst) : lookupBalance s j = none := by
  induction s with
  | nil => rfl
  | cons hd tl ih =>
    simp only [List.map_cons, List.mem_cons, not_or] at hj
    have hne : (hd.1 == j) = false := by
      simp only [beq_eq_false_iff_ne]
      exact fun h => hj.1 h.symm
    simp only [lookupBalance, List.find?, hne]
    exact ih hj.2

/-! Claim theorems. -/

/-- Claim C1: the claim says the key-acquisition step is cached and
idempotent (setup runs at most once and every prove and verify call
shares one bit-identical pair). The code instead runs groth16.Setup
inside every generateProof and validateProof request: the proof each
call emits is bound to that request's freshly sampled setup randomness,
and two runs whose sampled randomness differs hold different key pairs. -/
theorem C1_setup_rerun_per_call :
    (generateProof scenarioAStore ⟨aliceId, 150⟩ 0).proof = some (.obj 0 150) ∧
    (generateProof scenarioAStore ⟨aliceId, 150⟩ 1).proof = some (.obj 1 150) ∧
    groth16.Setup .balanceCCS 0 ≠ groth16.Setup .balanceCCS 1 := by
  decide

/-- Claim C2: scenario A. Storing balance 200 for alice and requesting
a proof with threshold 150 does succeed with a proof (status 200), but
submitting that proof to validateProof with threshold 150 yields 400,
not the claimed 200: json.Unmarshal cannot decode the proof object into
the groth16.Proof interface variable, so the handler rejects it before
verification is ever reached. -/
theorem C2_scenarioA_validate_rejected :
    scenarioAGen.status = 200 ∧
    scenarioAGen.proof = some (.obj 0 150) ∧
    validateProof scenarioAStore ⟨aliceId, 150, .obj 0 150⟩ 1 = 400 := by
  decide

/-- Claim C3: completeness. For any balance b and threshold t with
0 <= t <= b inside the scalar-field range, groth16.Prove on the witness
built from b and t succeeds, and the resulting proof verifies under the
verifying key of the same Setup run with the same public threshold. -/
theorem C3_completeness (b t : Int) (rnd : ℕ)
    (h0 : 0 ≤ t) (h1 : t ≤ b) (h2 : b < (bn254r : Int)) :
    groth16.Prove .balanceCCS (groth16.Setup .balanceCCS rnd).1 (newWitness b t)
      = .ok ⟨rnd, toF t⟩ ∧
    groth16.Verify ⟨rnd, toF t⟩ (groth16.Setup .balanceCCS rnd).2 (toF t) = true := by
  have hb0 : 0 ≤ b := le_trans h0 h1
  have ht2 : t < (bn254r : Int) := lt_of_le_of_lt h1 h2
  have e1 : (toF t : Int) = t := toF_of_range t h0 ht2
  have e2 : (toF b : Int) = b := toF_of_range b hb0 h2
  have hle : toF t ≤ toF b := by omega
  have hdef : BalanceCircuit.Define ⟨toF b, toF t⟩ = true := by
    simp only [BalanceCircuit.Define, decide_eq_true_eq]
    exact hle
  constructor
  · simp [groth16.Prove, groth16.Setup, newWitness, hdef]
  · simp [groth16.Verify, groth16.Setup]

/-- Check of C3 at the scenario-A numbers b = 200, t = 150, rnd = 0. -/
theorem C3_completeness_witness :
    groth16.Prove .balanceCCS (groth16.Setup .balanceCCS 0).1 (newWitness 200 150)
      = .ok ⟨0, toF 150⟩ ∧
    groth16.Verify ⟨0, toF 150⟩ (groth16.Setup .balanceCCS 0).2 (toF 150) = true :=
  C3_completeness 200 150 0 (by decide) (by decide) (by decide)

/-- Claim C4: prove-side soundness. When the stored balance b is below
the requested threshold t (both in the scalar-field range), witness
solving fails deterministically with the constraint-unsatisfied error,
and the generateProof handler returns status 500 with no proof in the
body. -/
theorem C4_prove_unsatisfied (s : Balances) (id : String) (b t : Int) (rnd : ℕ)
    (hl : lookupBalance s id = some b)
    (h0 : 0 ≤ b) (h1 : b < t) (h2 : t < (bn254r : Int)) :
    groth16.Prove .balanceCCS (groth16.Setup .balanceCCS rnd).1 (newWitness b t)
      = .error .constraintUnsatisfied ∧
    generateProof s ⟨id, t⟩ rnd = ⟨500, none, true, true⟩ := by
  have ht0 : 0 ≤ t := le_of_lt (lt_of_le_of_lt h0 h1)
  have hb2 : b < (bn254r : Int) := lt_trans h1 h2
  have e1 : (toF t : Int) = t := toF_of_range t ht0 h2
  have e2 : (toF b : Int) = b := toF_of_range b h0 hb2
  have hgt : ¬ (toF t ≤ toF b) := by omega
  have hdef : BalanceCircuit.Define ⟨toF b, toF t⟩ = false := by
    simp only [BalanceCircuit.Define, decide_eq_false_iff_not]
    exact hgt
  constructor
  · simp [groth16.Prove, groth16.Setup, newWitness, hdef]
  · simp [generateProof, hl, frontendCompile, groth16.Prove, groth16.Setup,
      newWitness, hdef]

/-- Check of C4 at the scenario-C numbers: charlie holds 75, threshold
100. -/
theorem C4_prove_unsatisfied_witness :
    groth16.Prove .balanceCCS (groth16.Setup .balanceCCS 0).1 (newWitness 75 100)
      = .error .constraintUnsatisfied ∧
    generateProof [(charlieId, 75)] ⟨charlieId, 100⟩ 0 = ⟨500, none, true, true⟩ :=
  C4_prove_unsatisfied [(charlieId, 75)] charlieId 75 100 0 (by decide)
    (by decide) (by decide) (by decide)

/-- Claim C5: scenario E. The claim expects the scenario-A proof,
checked against threshold 151, to be rejected as Invalid (401 from the
verification check). The handler instead answers 400: the proof object
cannot be decoded into the groth16.Proof interface, so the binding
check never runs. The intended binding does hold of the verification
core: under the key pair that produced it, the proof for threshold 150
is rejected for public input 151. -/
theorem C5_scenarioE_malformed_not_invalid :
    validateProof scenarioAStore ⟨aliceId, 151, .obj 0 150⟩ 1 = 400 ∧
    groth16.Verify ⟨0, 150⟩ (groth16.Setup .balanceCCS 0).2 151 = false := by
  decide

/-- Claim C6: the validate handler's outcome is a pure, deterministic
function of the request: it is unchanged under any change of the
balance store and under the setup randomness sampled during the
request, so two runs on identical inputs decide identically. -/
theorem C6_validate_deterministic (s1 s2 : Balances) (req : ValidateRequest)
    (r1 r2 : ℕ) :
    validateProof s1 req r1 = validateProof s2 req r2 := by
  cases h : req.proof <;>
    simp [validateProof, frontendCompile, jsonUnmarshalProofInterface, h]

/-- Claim C7: the serialize-then-deserialize path of the program fails
for every emitted proof: the JSON object written by generateProof is
refused by validateProof's json.Unmarshal into the non-empty
groth16.Proof interface, so the round-tripped value never reaches
verification and the endpoint answers 400. -/
theorem C7_roundtrip_decode_fails (p : groth16.Proof) (s : Balances) (id : String)
    (t : Int) (rnd : ℕ) :
    jsonUnmarshalProofInterface (encodeProof p) = .error .cannotUnmarshalIntoInterface ∧
    validateProof s ⟨id, t, encodeProof p⟩ rnd = 400 := by
  constructor
  · rfl
  · simp [validateProof, frontendCompile, encodeProof, jsonUnmarshalProofInterface]

/-- Claim C8: balance-store read-after-write. A put unconditionally
succeeds with 200 and a following get of the same identity observes the
new value; a get of an identity never written yields no entry (the 404
branch of the prove handler). -/
theorem C8_store_read_after_write (s : Balances) (id : String) (amt : Int)
    (j : String) (hj : j ∉ s.map Prod.fst) :
    (storeBalance s ⟨id, amt⟩).2 = 200 ∧
    lookupBalance (storeBalance s ⟨id, amt⟩).1 id = some amt ∧
    lookupBalance s j = none := by
  refine ⟨rfl, ?_, lookupBalance_eq_none s j hj⟩
  simp [storeBalance, lookupBalance, List.find?]

/-- Check of C8: write 200 for alice into the empty store and read it
back; dave was never written. -/
theorem C8_store_read_after_write_witness :
    (storeBalance [] ⟨aliceId, 200⟩).2 = 200 ∧
    lookupBalance (storeBalance [] ⟨aliceId, 200⟩).1 aliceId = some 200 ∧
    lookupBalance [] daveId = none :=
  C8_store_read_after_write [] aliceId 200 daveId (by decide)

/-- Claim C9: a proof request for an identity absent from the store is
answered 404 with no proof, and the handler returns before the setup
and proving steps are reached. -/
theorem C9_unknown_identity (s : Balances) (req : ProofRequest) (rnd : ℕ)
    (h : lookupBalance s req.id = none) :
    generateProof s req rnd = ⟨404, none, false, false⟩ := by
  simp [generateProof, h]

/-- Check of C9: scenario D, a proof request for dave when only alice
is stored. -/
theorem C9_unknown_identity_witness :
    generateProof [(aliceId, 200)] ⟨daveId, 100⟩ 0 = ⟨404, none, false, false⟩ :=
  C9_unknown_identity [(aliceId, 200)] ⟨daveId, 100⟩ 0 (by decide)

/-- Claim C10: the validate handler's result is independent of the
balance store and of the id field of the request: any two store states
and any two ids give the same outcome for the same threshold and proof
document, so the accepted-but-never-read id field has no influence. -/
theorem C10_validate_ignores_store_and_id (s1 s2 : Balances) (id1 id2 : String)
    (t : Int) (w : ProofWire) (rnd : ℕ) :
    validateProof s1 ⟨id1, t, w⟩ rnd = validateProof s2 ⟨id2, t, w⟩ rnd := by
  cases w <;> simp [validateProof, frontendCompile, jsonUnmarshalProofInterface]

end ZkTest1
